import Mathlib

/-!
# Verification of the Customer CRUD service

Shallow embedding of `service/models.py` and `service/routes.py` of the
Customer REST service, together with theorems settling the spec claims.

Conventions of the embedding:
* Python `None` is `Option.none`; a column/attribute of type `T` that may be
  `None` is `Option T`.
* Machine-level JSON values appearing in request payloads are `JVal`
  (null, boolean, string, integer) — the shapes the claims quantify over.
* A payload (Python `dict` from `request.json` / `api.payload`) is a record
  of optional keys: `none` means the key is absent, `some v` means the key
  is present with value `v`.
* The database session is a `DB`: a list of persisted rows plus the next
  autoincrement id.  `session.add`+`commit` appends a row and assigns the
  id; committing a mutated session object writes it back by primary key.
* Python exceptions are explicit: `PyErr` distinguishes
  `DataValidationError` (models.py line 17), an uncaught `AttributeError`
  (e.g. calling `.strip()` on `None`), and an uncaught `KeyError`
  (dict lookup of an unregistered parser argument).
-/

/-- A JSON value as far as the claims need (payload field values). -/
inductive JVal where
  | jnull : JVal
  | jbool : Bool → JVal
  | jstr : String → JVal
  | jnum : Int → JVal
deriving DecidableEq, Repr

/-- `str(type(v))` for a JSON value `v`, as CPython prints it; used by the
`deserialize` error message for a non-boolean `active`. -/
def pyType : JVal → String
  | JVal.jnull => "<class 'NoneType'>"
  | JVal.jbool _ => "<class 'bool'>"
  | JVal.jstr _ => "<class 'str'>"
  | JVal.jnum _ => "<class 'int'>"

/-- Python truthiness of an optional integer attribute (`if not self.id`):
`None` and `0` are falsy. -/
def pyTruthyId : Option Int → Bool
  | none => false
  | some n => n != 0

/-- Python `not s.strip()`: true iff every character of `s` is whitespace
(so `s.strip()` is the empty, falsy string). -/
def isBlank (s : String) : Bool := s.data.all Char.isWhitespace

/-- Python exceptions that the embedded code can raise. -/
inductive PyErr where
  | dataValidationError : String → PyErr
  | attributeError : String → PyErr
  | keyError : String → PyErr
deriving DecidableEq, Repr

/-- The `Customer` model object (models.py lines 25–38): six attributes,
each nullable at the Python level (a fresh `Customer()` has every
attribute `None`). -/
structure Customer where
  id : Option Int
  name : Option String
  password : Option String
  email : Option String
  address : Option String
  active : Option Bool
deriving DecidableEq, Repr

/-- A fresh `Customer()` object: every attribute unset. -/
def newCustomer : Customer := ⟨none, none, none, none, none, none⟩

/-- A JSON request body for a Customer.  Each field is `none` when the key
is absent from the dict.  `name`/`password`/`email`/`address` values are
string-or-null (the shapes the claims range over); `active` is an arbitrary
JSON value because `deserialize` type-checks it. -/
structure Payload where
  id : Option (Option Int)
  name : Option (Option String)
  password : Option (Option String)
  email : Option (Option String)
  address : Option (Option String)
  active : Option JVal
deriving DecidableEq, Repr

/-- The dictionary produced by `Customer.serialize` (models.py 102–111):
exactly the six attributes. -/
structure SerializedCustomer where
  id : Option Int
  name : Option String
  password : Option String
  email : Option String
  address : Option String
  active : Option Bool
deriving DecidableEq, Repr

/-- The database: persisted rows plus the autoincrement counter. -/
structure DB where
  rows : List Customer
  nextId : Int
deriving DecidableEq, Repr

/-- `Customer.serialize` (models.py 102–111): the dict of the six
attributes, verbatim. -/
def Customer.serialize (c : Customer) : SerializedCustomer :=
  ⟨c.id, c.name, c.password, c.email, c.address, c.active⟩

/-- `Customer.deserialize` (models.py 113–146), with the object's partial
mutation made explicit: the result is the object after whatever
assignments executed, paired with `none` on success or the raised
exception.  The statements run in source order inside `try`:
`self.name = data["name"]`; `self.email = data["email"]`; the
`isinstance(data["active"], bool)` check (a non-bool raises
`DataValidationError`, which the `except KeyError/TypeError` clauses do
not catch, so it propagates); `self.address = data["address"]`;
`self.password = data["password"]`.  A missing key raises `KeyError`,
converted to `DataValidationError ("Invalid customer: missing " + key)`.
After the `try`, `if not self.id and "id" in data: self.id = data["id"]`.
(The `except TypeError` branch concerns a non-dict body, outside the
`Payload` domain.) -/
def Customer.deserialize (c : Customer) (data : Payload) :
    Customer × Option PyErr :=
  match data.name with
  | none => (c, some (PyErr.dataValidationError "Invalid customer: missing name"))
  | some nv =>
    let c := { c with name := nv }
    match data.email with
    | none => (c, some (PyErr.dataValidationError "Invalid customer: missing email"))
    | some ev =>
      let c := { c with email := ev }
      match data.active with
      | none => (c, some (PyErr.dataValidationError "Invalid customer: missing active"))
      | some (JVal.jbool b) =>
        let c := { c with active := some b }
        match data.address with
        | none => (c, some (PyErr.dataValidationError "Invalid customer: missing address"))
        | some adv =>
          let c := { c with address := adv }
          match data.password with
          | none => (c, some (PyErr.dataValidationError "Invalid customer: missing password"))
          | some pv =>
            let c := { c with password := pv }
            let c :=
              if !(pyTruthyId c.id) && data.id.isSome then
                { c with id := data.id.getD none }
              else c
            (c, none)
      | some av =>
        (c, some (PyErr.dataValidationError
          ("Invalid type for boolean [active]: " ++ pyType av)))

/-- `Customer.create` (models.py 43–69), with the object's mutation made
explicit.  The first statement is `self.id = None`; only then are
`name`, `email`, `password` checked (`is None`, then blank after
`strip()`), each failure raising `DataValidationError` before anything is
persisted.  On success `session.add` + `commit` appends the row and the
autoincrement assigns `self.id`. -/
def Customer.create (c : Customer) (db : DB) :
    Customer × Except PyErr DB :=
  let c := { c with id := none }
  match c.name with
  | none => (c, Except.error (PyErr.dataValidationError "name attribute is not set"))
  | some n =>
    if isBlank n then
      (c, Except.error (PyErr.dataValidationError "name attribute is not set"))
    else
      match c.email with
      | none => (c, Except.error (PyErr.dataValidationError "email attribute is not set"))
      | some e =>
        if isBlank e then
          (c, Except.error (PyErr.dataValidationError "email attribute is not set"))
        else
          match c.password with
          | none => (c, Except.error (PyErr.dataValidationError "password attribute is not set"))
          | some p =>
            if isBlank p then
              (c, Except.error (PyErr.dataValidationError "password attribute is not set"))
            else
              let c2 := { c with id := some db.nextId }
              (c2, Except.ok ⟨db.rows ++ [c2], db.nextId + 1⟩)

/-- Replace a row by primary key: how committing a mutated session object
writes it back (primary keys are unique, so replacing every row whose id
matches is the same write). -/
def replaceRow (c r : Customer) : Customer :=
  if r.id == c.id then c else r

/-- Commit a mutated object `c` to the database (write-back by id). -/
def dbUpdate (db : DB) (c : Customer) : DB :=
  ⟨db.rows.map (replaceRow c), db.nextId⟩

/-- `Customer.update` (models.py 71–89).  `if not self.id` (Python
truthiness) raises `DataValidationError`; then each of
`self.name.strip()`, `self.email.strip()`, `self.password.strip()` is
evaluated in order — on a `None` attribute this is an uncaught
`AttributeError`, and a blank one raises `DataValidationError`.  On
success `session.commit()` writes the object back in place. -/
def Customer.update (c : Customer) (db : DB) : Except PyErr DB :=
  if pyTruthyId c.id then
    match c.name with
    | none => Except.error (PyErr.attributeError "'NoneType' object has no attribute 'strip'")
    | some n =>
      if isBlank n then
        Except.error (PyErr.dataValidationError "name attribute is not set")
      else
        match c.email with
        | none => Except.error (PyErr.attributeError "'NoneType' object has no attribute 'strip'")
        | some e =>
          if isBlank e then
            Except.error (PyErr.dataValidationError "email attribute is not set")
          else
            match c.password with
            | none => Except.error (PyErr.attributeError "'NoneType' object has no attribute 'strip'")
            | some p =>
              if isBlank p then
                Except.error (PyErr.dataValidationError "password attribute is not set")
              else
                Except.ok (dbUpdate db c)
  else Except.error (PyErr.dataValidationError "Customer ID cannot be None")

/-- `Customer.all` (models.py 152–156). -/
def Customer.all (db : DB) : List Customer := db.rows

/-- `Customer.find` (models.py 158–162): primary-key lookup. -/
def Customer.find (db : DB) (byId : Int) : Option Customer :=
  db.rows.find? (fun r => r.id == some byId)

/-- `Customer.find_by_name` (models.py 164–172): exact column match. -/
def Customer.find_by_name (db : DB) (name : String) : List Customer :=
  db.rows.filter (fun r => r.name == some name)

/-- `Customer.find_by_active` (models.py 174–182). -/
def Customer.find_by_active (db : DB) (active : Bool) : List Customer :=
  db.rows.filter (fun r => r.active == some active)

/-- `Customer.find_by_address` (models.py 184–192). -/
def Customer.find_by_address (db : DB) (address : String) : List Customer :=
  db.rows.filter (fun r => r.address == some address)

/-- `Customer.find_by_email` (models.py 194–202). -/
def Customer.find_by_email (db : DB) (email : String) : List Customer :=
  db.rows.filter (fun r => r.email == some email)

/-- Python `str.lower()` restricted to ASCII, character by character. -/
def pyLower (s : String) : String := ⟨s.data.map Char.toLower⟩

/-- `flask_restx.inputs.boolean` (external library, modelled from its
documented behavior): case-insensitive parse of a boolean query value;
an unrecognised literal raises `ValueError`, which `parse_args` turns
into a 400 response. -/
def inputsBoolean (s : String) : Except String Bool :=
  if s = "" then Except.ok false
  else if pyLower s = "true" || pyLower s = "1" || pyLower s = "on" then Except.ok true
  else if pyLower s = "false" || pyLower s = "0" || pyLower s = "off" then Except.ok false
  else Except.error ("Invalid literal for boolean(): " ++ s)

/-- The raw query string of a list request: each field is the parameter's
text when supplied, `none` when absent.  All five parameters the spec
talks about are representable, but note that `args_config`
(routes.py 110–129) registers only `name`, `id` and `active`. -/
structure ListRequest where
  name : Option String
  id : Option String
  email : Option String
  address : Option String
  active : Option String
deriving DecidableEq, Repr

/-- The dict returned by `customer_args.parse_args()`: exactly the three
registered arguments of `args_config` (routes.py 110–129), each with
`required=True`.  `email` and `address` are NOT registered, so they are
not keys of this dict. -/
structure ParsedArgs where
  name : String
  id : String
  active : Bool
deriving DecidableEq, Repr

/-- `customer_args.parse_args()` over `args_config`: every registered
argument is `required=True`, so a request missing any of `name`, `id`,
`active` is rejected with a 400 ("Missing required parameter in the query
string"); `active` is converted by `inputs.boolean`. -/
def parseArgs (r : ListRequest) : Except String ParsedArgs :=
  match r.name, r.id, r.active with
  | some n, some i, some a =>
    match inputsBoolean a with
    | Except.ok b => Except.ok ⟨n, i, b⟩
    | Except.error m => Except.error m
  | _, _, _ => Except.error "Missing required parameter in the query string"

/-- Outcome of `CustomerCollection.get` (the list route). -/
inductive ListResult where
  | ok : List SerializedCustomer → ListResult
  | badRequest : String → ListResult
  | serverError : PyErr → ListResult
deriving DecidableEq, Repr

/-- `CustomerCollection.get` (routes.py 279–303).  After `parse_args`, the
dispatch chain reads `args["name"]` (truthy iff a non-empty string was
supplied) and then `args["email"]` — but `"email"` was never registered
in `args_config`, so that dict lookup raises `KeyError("email")`, an
unhandled exception (HTTP 500).  The `email`/`address`/`active`/`all`
branches of the chain are therefore unreachable. -/
def listCustomers (db : DB) (r : ListRequest) : ListResult :=
  match parseArgs r with
  | Except.error m => ListResult.badRequest m
  | Except.ok args =>
    if args.name != "" then
      ListResult.ok ((Customer.find_by_name db args.name).map Customer.serialize)
    else
      ListResult.serverError (PyErr.keyError "email")

/-- Outcome of `CustomerResource.put` (the update-by-path route). -/
inductive PutResult where
  | ok : SerializedCustomer → DB → PutResult
  | notFound : PutResult
  | badRequest : String → PutResult
  | serverError : PyErr → PutResult
deriving DecidableEq, Repr

/-- `CustomerResource.put` (routes.py 223–241): find by path id (404 when
absent), `customer.deserialize(data)` on the stored row (a raised
`DataValidationError` surfaces as 400), then `customer.id = customer_id`
forces the path id, `customer.update()` persists, and the serialized
entity is returned with 200. -/
def putCustomer (db : DB) (pathId : Int) (body : Payload) : PutResult :=
  match Customer.find db pathId with
  | none => PutResult.notFound
  | some customer =>
    match Customer.deserialize customer body with
    | (_, some (PyErr.dataValidationError m)) => PutResult.badRequest m
    | (_, some err) => PutResult.serverError err
    | (c1, none) =>
      let c2 := { c1 with id := some pathId }
      match Customer.update c2 db with
      | Except.error (PyErr.dataValidationError m) => PutResult.badRequest m
      | Except.error err => PutResult.serverError err
      | Except.ok db2 => PutResult.ok (Customer.serialize c2) db2

/-- Outcome of the activate/deactivate sub-resource routes. -/
inductive ActionResult where
  | ok : String → Option Bool → DB → ActionResult
  | notFound : ActionResult
  | badRequest : String → ActionResult
  | serverError : PyErr → ActionResult
deriving DecidableEq, Repr

/-- `ActivateResource.patch` (routes.py 337–356): find by id (404 when
absent), set `active = True`, `update()`, return the summary payload
`{"message": "Customer activated", "active_status": customer.active}`
with 200. -/
def activateCustomer (db : DB) (cid : Int) : ActionResult :=
  match Customer.find db cid with
  | none => ActionResult.notFound
  | some customer =>
    let c := { customer with active := some true }
    match Customer.update c db with
    | Except.error (PyErr.dataValidationError m) => ActionResult.badRequest m
    | Except.error err => ActionResult.serverError err
    | Except.ok db2 => ActionResult.ok "Customer activated" c.active db2

/-- `DeactivateResource.patch` (routes.py 370–389): find by id (404 when
absent), set `active = False`, `update()`, return the summary payload
`{"message": "Customer deactivated", "active_status": customer.active}`
with 200. -/
def deactivateCustomer (db : DB) (cid : Int) : ActionResult :=
  match Customer.find db cid with
  | none => ActionResult.notFound
  | some customer =>
    let c := { customer with active := some false }
    match Customer.update c db with
    | Except.error (PyErr.dataValidationError m) => ActionResult.badRequest m
    | Except.error err => ActionResult.serverError err
    | Except.ok db2 => ActionResult.ok "Customer deactivated" c.active db2

/-- Decidable substring test on character lists: does the haystack contain
the needle as a contiguous run? -/
def listHasInfix (needle : List Char) : List Char → Bool
  | [] => needle.isEmpty
  | h :: t => needle.isPrefixOf (h :: t) || listHasInfix needle t

/-- Decidable substring test on strings ("the message names the offending
type" is read as: the type's printed name occurs in the message). -/
def strContains (hay needle : String) : Bool :=
  listHasInfix needle.data hay.data

/-- A stored row whose three required string fields are present and
non-blank (the invariant `create`/`update` maintain for persisted rows). -/
def rowValid (c : Customer) : Bool :=
  (match c.name with | some n => !(isBlank n) | none => false) &&
  (match c.email with | some e => !(isBlank e) | none => false) &&
  (match c.password with | some p => !(isBlank p) | none => false)

/-- Helper: a successful `find?` certifies the row's primary key. -/
theorem find_id_eq {db : DB} {pid : Int} {c0 : Customer}
    (h : Customer.find db pid = some c0) : c0.id = some pid := by
  unfold Customer.find at h
  have h2 := List.find?_some h
  simpa using h2

/-- Helper: writing back a row whose id is the looked-up key makes the
subsequent lookup return exactly that row. -/
theorem find?_replaceRow_map {rows : List Customer} {pid : Int} {c0 c : Customer}
    (h : rows.find? (fun r => r.id == some pid) = some c0)
    (hc : c.id = some pid) :
    (rows.map (replaceRow c)).find? (fun r => r.id == some pid) = some c := by
  induction rows with
  | nil => simp at h
  | cons r t ih =>
    by_cases hr : (r.id == some pid) = true
    · have hrepl : replaceRow c r = c := by
        unfold replaceRow
        rw [beq_iff_eq.mp hr, hc]
        simp
      simp only [List.map_cons, hrepl]
      exact List.find?_cons_of_pos _ (by rw [hc]; simp)
    · have h' : t.find? (fun r => r.id == some pid) = some c0 := by
        rwa [List.find?_cons_of_neg _ (by simpa using hr)] at h
      have hrf : (r.id == some pid) = false := by simpa using hr
      have hrepl : replaceRow c r = r := by
        unfold replaceRow
        rw [hc, hrf]
        simp
      simp only [List.map_cons, hrepl]
      rw [List.find?_cons_of_neg _ (by simpa using hr)]
      exact ih h'

/-- Helper: `Customer.find` after `dbUpdate` of a row carrying the
looked-up id returns that row. -/
theorem find_dbUpdate {db : DB} {pid : Int} {c0 c : Customer}
    (h : Customer.find db pid = some c0) (hc : c.id = some pid) :
    Customer.find (dbUpdate db c) pid = some c := by
  unfold Customer.find at h ⊢
  unfold dbUpdate
  exact find?_replaceRow_map h hc

/-- Helper: writing the same object back twice is the same as writing it
once (write-back by primary key is idempotent). -/
theorem dbUpdate_idem (db : DB) (c : Customer) :
    dbUpdate (dbUpdate db c) c = dbUpdate db c := by
  have hff : ∀ r, replaceRow c (replaceRow c r) = replaceRow c r := by
    intro r
    unfold replaceRow
    by_cases h : (r.id == c.id) = true
    · simp [h]
    · have hf : (r.id == c.id) = false := by simpa using h
      simp [hf]
  unfold dbUpdate
  simp only [List.map_map]
  rw [show (replaceRow c ∘ replaceRow c) = replaceRow c from funext hff]

/-- Helper: `update` on an object with a truthy id and valid required
fields commits the write-back. -/
theorem update_ok {c : Customer} (db : DB)
    (hid : pyTruthyId c.id = true) (hv : rowValid c = true) :
    Customer.update c db = Except.ok (dbUpdate db c) := by
  unfold rowValid at hv
  cases hn : c.name with
  | none => rw [hn] at hv; simp at hv
  | some n =>
    cases he : c.email with
    | none => rw [hn, he] at hv; simp at hv
    | some e =>
      cases hp : c.password with
      | none => rw [hn, he, hp] at hv; simp at hv
      | some p =>
        rw [hn, he, hp] at hv
        simp only [Bool.and_eq_true, Bool.not_eq_true'] at hv
        obtain ⟨⟨h1, h2⟩, h3⟩ := hv
        simp [Customer.update, hid, hn, he, hp, h1, h2, h3]

/-- Helper: the needle occurs in any string that ends with it. -/
theorem listHasInfix_append (s t : List Char) : listHasInfix t (s ++ t) = true := by
  induction s with
  | nil =>
    cases t with
    | nil => rfl
    | cons h tl =>
      show listHasInfix (h :: tl) (h :: tl) = true
      unfold listHasInfix
      rw [List.isPrefixOf_iff_prefix.mpr (List.prefix_refl _)]
      simp
  | cons ch s' ih =>
    show listHasInfix t (ch :: (s' ++ t)) = true
    unfold listHasInfix
    rw [ih]
    simp

/-- Helper: `strContains (s ++ t) t` always holds. -/
theorem strContains_append (s t : String) : strContains (s ++ t) t = true := by
  unfold strContains
  rw [String.data_append]
  exact listHasInfix_append s.data t.data

/-- Helper: `deserialize` with `name` and `email` keys present and a
non-boolean `active` value mutates `name` and `email`, then raises the
type error. -/
theorem deserialize_bad_active (c : Customer) (data : Payload)
    (nv ev : Option String) (av : JVal)
    (hn : data.name = some nv) (he : data.email = some ev)
    (ha : data.active = some av) (hnb : ∀ b, av ≠ JVal.jbool b) :
    Customer.deserialize c data =
      ({ c with name := nv, email := ev },
       some (PyErr.dataValidationError
         ("Invalid type for boolean [active]: " ++ pyType av))) := by
  cases av with
  | jbool b => exact absurd rfl (hnb b)
  | jnull => simp [Customer.deserialize, hn, he, ha]
  | jstr s => simp [Customer.deserialize, hn, he, ha]
  | jnum n => simp [Customer.deserialize, hn, he, ha]

/-- C10: `deserialize` mutates the entity field-by-field before completing
validation: when it fails because the `active` key is present with a
non-boolean value, the entity's `name` and `email` have already been
overwritten with the payload's values (and `password`/`address` have not
been touched yet) — `deserialize` is not atomic on failure. -/
theorem C10_deserialize_partial_mutation (c : Customer) (data : Payload)
    (nv ev : Option String) (av : JVal)
    (hn : data.name = some nv) (he : data.email = some ev)
    (ha : data.active = some av) (hnb : ∀ b, av ≠ JVal.jbool b) :
    (Customer.deserialize c data).1.name = nv ∧
    (Customer.deserialize c data).1.email = ev ∧
    (Customer.deserialize c data).1.password = c.password ∧
    (Customer.deserialize c data).1.address = c.address ∧
    (Customer.deserialize c data).2 =
      some (PyErr.dataValidationError
        ("Invalid type for boolean [active]: " ++ pyType av)) := by
  rw [deserialize_bad_active c data nv ev av hn he ha hnb]
  exact ⟨rfl, rfl, rfl, rfl, rfl⟩

/-- Witness for C10 at a concrete entity and payload: the stale entity's
`name`/`email` are overwritten by "New"/"new@x.io" before the failure on
`active = "yes"` (a string). -/
theorem C10_witness :
    ((Customer.deserialize
        ⟨some 7, some "Old", some "oldpw", some "old@x.io", some "addr", some false⟩
        ⟨none, some (some "New"), some (some "newpw"), some (some "new@x.io"),
         none, some (JVal.jstr "yes")⟩).1.name = some "New") ∧
    ((Customer.deserialize
        ⟨some 7, some "Old", some "oldpw", some "old@x.io", some "addr", some false⟩
        ⟨none, some (some "New"), some (some "newpw"), some (some "new@x.io"),
         none, some (JVal.jstr "yes")⟩).1.email = some "new@x.io") ∧
    ((Customer.deserialize
        ⟨some 7, some "Old", some "oldpw", some "old@x.io", some "addr", some false⟩
        ⟨none, some (some "New"), some (some "newpw"), some (some "new@x.io"),
         none, some (JVal.jstr "yes")⟩).1.password = some "oldpw") ∧
    ((Customer.deserialize
        ⟨some 7, some "Old", some "oldpw", some "old@x.io", some "addr", some false⟩
        ⟨none, some (some "New"), some (some "newpw"), some (some "new@x.io"),
         none, some (JVal.jstr "yes")⟩).1.address = some "addr") ∧
    ((Customer.deserialize
        ⟨some 7, some "Old", some "oldpw", some "old@x.io", some "addr", some false⟩
        ⟨none, some (some "New"), some (some "newpw"), some (some "new@x.io"),
         none, some (JVal.jstr "yes")⟩).2 =
      some (PyErr.dataValidationError
        ("Invalid type for boolean [active]: " ++ pyType (JVal.jstr "yes")))) :=
  C10_deserialize_partial_mutation _ _ _ _ _ rfl rfl rfl (by decide)

/-- C3 (amended): for every payload in which `active` is present with a
non-boolean value, `deserialize` fails with a `DataValidationError`; when
the payload also supplies the `name` and `email` keys (so execution
reaches the `active` type check), the error message names the offending
type. -/
theorem C3_active_nonbool_rejected (c : Customer) (data : Payload) (av : JVal)
    (ha : data.active = some av) (hnb : ∀ b, av ≠ JVal.jbool b) :
    (∃ m, (Customer.deserialize c data).2 = some (PyErr.dataValidationError m)) ∧
    (∀ nv ev, data.name = some nv → data.email = some ev →
      ∃ m, (Customer.deserialize c data).2 = some (PyErr.dataValidationError m) ∧
        strContains m (pyType av) = true) := by
  constructor
  · cases hn : data.name with
    | none =>
      exact ⟨"Invalid customer: missing name", by simp [Customer.deserialize, hn]⟩
    | some nv =>
      cases he : data.email with
      | none =>
        exact ⟨"Invalid customer: missing email", by simp [Customer.deserialize, hn, he]⟩
      | some ev =>
        refine ⟨"Invalid type for boolean [active]: " ++ pyType av, ?_⟩
        rw [deserialize_bad_active c data nv ev av hn he ha hnb]
  · intro nv ev hn he
    refine ⟨"Invalid type for boolean [active]: " ++ pyType av, ?_, ?_⟩
    · rw [deserialize_bad_active c data nv ev av hn he ha hnb]
    · exact strContains_append _ _

/-- Counterexample to C3 as stated: the payload `{"active": "yes"}` has
`active` present with a string value, and `deserialize` does fail with a
`DataValidationError` — but its message is "Invalid customer: missing
name", which does not name the offending type `<class 'str'>`. -/
theorem C3_counterexample :
    (Customer.deserialize newCustomer
        ⟨none, none, none, none, none, some (JVal.jstr "yes")⟩).2 =
      some (PyErr.dataValidationError "Invalid customer: missing name") ∧
    strContains "Invalid customer: missing name" (pyType (JVal.jstr "yes")) = false := by
  constructor
  · rfl
  · decide

/-- Witness for C3 at a concrete payload with `name`/`email` present and
`active` a number. -/
theorem C3_witness :
    (∃ m, (Customer.deserialize newCustomer
        ⟨none, some (some "Kim"), none, some (some "kim@x.io"), none,
         some (JVal.jnum 1)⟩).2 = some (PyErr.dataValidationError m)) ∧
    (∀ nv ev,
      (⟨none, some (some "Kim"), none, some (some "kim@x.io"), none,
        some (JVal.jnum 1)⟩ : Payload).name = some nv →
      (⟨none, some (some "Kim"), none, some (some "kim@x.io"), none,
        some (JVal.jnum 1)⟩ : Payload).email = some ev →
      ∃ m, (Customer.deserialize newCustomer
        ⟨none, some (some "Kim"), none, some (some "kim@x.io"), none,
         some (JVal.jnum 1)⟩).2 = some (PyErr.dataValidationError m) ∧
        strContains m (pyType (JVal.jnum 1)) = true) :=
  C3_active_nonbool_rejected newCustomer _ _ rfl (by decide)

/-- C4 (amended): the `address` KEY is required by `deserialize` even
though its VALUE may be null: given `name`, `email` and a boolean
`active`, omitting the `address` key fails with `DataValidationError`
"Invalid customer: missing address", while supplying `"address": null`
(together with `password`) succeeds and leaves the entity's address
unset/null. -/
theorem C4_address_key_contract (c : Customer) (data : Payload)
    (nv ev : Option String) (b : Bool)
    (hn : data.name = some nv) (he : data.email = some ev)
    (hb : data.active = some (JVal.jbool b)) :
    (data.address = none →
      (Customer.deserialize c data).2 =
        some (PyErr.dataValidationError "Invalid customer: missing address")) ∧
    (∀ pv, data.address = some none → data.password = some pv →
      (Customer.deserialize c data).2 = none ∧
      (Customer.deserialize c data).1.address = none) := by
  constructor
  · intro ha
    simp [Customer.deserialize, hn, he, hb, ha]
  · intro pv ha hp
    unfold Customer.deserialize
    rw [hn, he, hb, ha, hp]
    constructor
    · by_cases hc : (!(pyTruthyId c.id) && data.id.isSome) = true <;> simp [hc]
    · by_cases hc : (!(pyTruthyId c.id) && data.id.isSome) = true <;> simp [hc]

/-- Counterexample to C4 as stated: a payload supplying non-blank `name`,
`email`, `password` and boolean `active` but omitting the `address` key
does NOT deserialize successfully — it fails with "Invalid customer:
missing address". -/
theorem C4_counterexample :
    (Customer.deserialize newCustomer
        ⟨none, some (some "Ann"), some (some "pw9"), some (some "ann@x.io"),
         none, some (JVal.jbool true)⟩).2 =
      some (PyErr.dataValidationError "Invalid customer: missing address") ∧
    (Customer.deserialize newCustomer
        ⟨none, some (some "Ann"), some (some "pw9"), some (some "ann@x.io"),
         none, some (JVal.jbool true)⟩).2 ≠ none := by
  constructor
  · rfl
  · decide

/-- Witness for C4 at concrete payloads: one omitting the `address` key
(rejected), one supplying `"address": null` (accepted, address left
null). -/
theorem C4_witness :
    ((Customer.deserialize newCustomer
        ⟨none, some (some "Ben"), some (some "pw8"), some (some "ben@x.io"),
         none, some (JVal.jbool false)⟩).2 =
      some (PyErr.dataValidationError "Invalid customer: missing address")) ∧
    ((Customer.deserialize newCustomer
        ⟨none, some (some "Cam"), some (some "pw7"), some (some "cam@x.io"),
         some none, some (JVal.jbool false)⟩).2 = none ∧
     (Customer.deserialize newCustomer
        ⟨none, some (some "Cam"), some (some "pw7"), some (some "cam@x.io"),
         some none, some (JVal.jbool false)⟩).1.address = none) :=
  ⟨(C4_address_key_contract newCustomer _ _ _ false rfl rfl rfl).1 rfl,
   (C4_address_key_contract newCustomer _ _ _ false rfl rfl rfl).2 (some "pw7") rfl rfl⟩

/-- C2 (amended): for every payload `x` with non-blank `name`, `email`,
`password`, a boolean `active` AND the `address` key present:
`deserialize` on a fresh entity succeeds, `serialize` of the result
reproduces all six fields of `x` (the identifier per the adoption rule:
a fresh entity adopts `x`'s id when the key is present), and `create()`
afterwards succeeds and assigns a non-null storage identifier. -/
theorem C2_create_roundtrip (x : Payload) (db : DB)
    (n e p : String) (a : Option String) (b : Bool)
    (hn : x.name = some (some n)) (hn2 : isBlank n = false)
    (he : x.email = some (some e)) (he2 : isBlank e = false)
    (hp : x.password = some (some p)) (hp2 : isBlank p = false)
    (hb : x.active = some (JVal.jbool b))
    (ha : x.address = some a) :
    Customer.deserialize newCustomer x =
      (⟨x.id.getD none, some n, some p, some e, a, some b⟩, none) ∧
    Customer.serialize ⟨x.id.getD none, some n, some p, some e, a, some b⟩ =
      ⟨x.id.getD none, some n, some p, some e, a, some b⟩ ∧
    ∃ db2,
      Customer.create ⟨x.id.getD none, some n, some p, some e, a, some b⟩ db =
        (⟨some db.nextId, some n, some p, some e, a, some b⟩, Except.ok db2) ∧
      (some db.nextId : Option Int) ≠ none ∧
      db2.rows = db.rows ++ [⟨some db.nextId, some n, some p, some e, a, some b⟩] := by
  refine ⟨?_, rfl, ⟨⟨db.rows ++ [⟨some db.nextId, some n, some p, some e, a, some b⟩],
    db.nextId + 1⟩, ?_, by simp, rfl⟩⟩
  · unfold Customer.deserialize
    rw [hn, he, hb, ha, hp]
    cases hid : x.id with
    | none => simp [newCustomer, pyTruthyId]
    | some v => simp [newCustomer, pyTruthyId]
  · simp [Customer.create, hn2, he2, hp2]

/-- Counterexample to C2 as stated: a payload with non-blank `name`,
`email`, `password` and boolean `active` — but no `address` key — does
not reach `create()` at all: `deserialize` already fails, so
"create() after deserialize(x) succeeds" is false for this payload. -/
theorem C2_counterexample :
    (Customer.deserialize newCustomer
        ⟨none, some (some "Wang"), some (some "123456"), some (some "w@x.com"),
         none, some (JVal.jbool false)⟩).2 =
      some (PyErr.dataValidationError "Invalid customer: missing address") ∧
    (Customer.deserialize newCustomer
        ⟨none, some (some "Wang"), some (some "123456"), some (some "w@x.com"),
         none, some (JVal.jbool false)⟩).2 ≠ none := by
  constructor
  · rfl
  · decide

/-- Witness for C2 at a concrete payload (all six keys, id 42 adopted by
deserialize, then cleared and reassigned to 1 by create). -/
theorem C2_witness :
    Customer.deserialize newCustomer
        ⟨some (some 42), some (some "Wang"), some (some "123456"),
         some (some "w@x.com"), some (some "apt1"), some (JVal.jbool false)⟩ =
      (⟨some 42, some "Wang", some "123456", some "w@x.com", some "apt1", some false⟩, none) ∧
    Customer.serialize ⟨some 42, some "Wang", some "123456", some "w@x.com", some "apt1", some false⟩ =
      ⟨some 42, some "Wang", some "123456", some "w@x.com", some "apt1", some false⟩ ∧
    ∃ db2,
      Customer.create ⟨some 42, some "Wang", some "123456", some "w@x.com", some "apt1", some false⟩ ⟨[], 1⟩ =
        (⟨some 1, some "Wang", some "123456", some "w@x.com", some "apt1", some false⟩, Except.ok db2) ∧
      (some 1 : Option Int) ≠ none ∧
      db2.rows = [] ++ [⟨some 1, some "Wang", some "123456", some "w@x.com", some "apt1", some false⟩] :=
  C2_create_roundtrip _ ⟨[], 1⟩ "Wang" "w@x.com" "123456" (some "apt1") false
    rfl (by decide) rfl (by decide) rfl (by decide) rfl rfl

/-- C5 (amended): when `create()` fails validation (null or blank `name`,
`email`, or `password`), it short-circuits before anything is persisted
(no database value is produced) and mutates no field EXCEPT the
identifier, which `create()` clears unconditionally as its very first
statement — i.e. before validation, on every path, not only on the
success path.  A pre-supplied identifier is therefore already gone when
the validation error is raised. -/
theorem C5_create_failure_clears_id (c : Customer) (db : DB)
    (hbad : c.name = none ∨ (∃ n, c.name = some n ∧ isBlank n = true) ∨
            c.email = none ∨ (∃ e, c.email = some e ∧ isBlank e = true) ∨
            c.password = none ∨ (∃ p, c.password = some p ∧ isBlank p = true)) :
    ∃ m, Customer.create c db =
      ({ c with id := none }, Except.error (PyErr.dataValidationError m)) := by
  cases hn : c.name with
  | none => exact ⟨"name attribute is not set", by simp [Customer.create, hn]⟩
  | some n =>
    cases hbn : isBlank n with
    | true => exact ⟨"name attribute is not set", by simp [Customer.create, hn, hbn]⟩
    | false =>
      cases he : c.email with
      | none => exact ⟨"email attribute is not set", by simp [Customer.create, hn, hbn, he]⟩
      | some e =>
        cases hbe : isBlank e with
        | true => exact ⟨"email attribute is not set", by simp [Customer.create, hn, hbn, he, hbe]⟩
        | false =>
          cases hp : c.password with
          | none => exact ⟨"password attribute is not set", by simp [Customer.create, hn, hbn, he, hbe, hp]⟩
          | some p =>
            cases hbp : isBlank p with
            | true =>
              exact ⟨"password attribute is not set", by simp [Customer.create, hn, hbn, he, hbe, hp, hbp]⟩
            | false =>
              exfalso
              rcases hbad with h | ⟨n', h1, h2⟩ | h | ⟨e', h1, h2⟩ | h | ⟨p', h1, h2⟩ <;>
                simp_all

/-- Counterexample to C5 as stated: an entity carrying pre-supplied id 5
and a blank name.  `create()` raises the validation error, but the
entity's identifier is NOT unchanged: it has been cleared to null before
the check ran. -/
theorem C5_counterexample :
    Customer.create ⟨some 5, some "", some "secret9", some "kim@x.io", none, some true⟩ ⟨[], 1⟩ =
      (⟨none, some "", some "secret9", some "kim@x.io", none, some true⟩,
       Except.error (PyErr.dataValidationError "name attribute is not set")) ∧
    (Customer.create ⟨some 5, some "", some "secret9", some "kim@x.io", none, some true⟩
        ⟨[], 1⟩).1.id ≠ some 5 := by
  constructor
  · rfl
  · decide

/-- Witness for C5: a concrete entity with a null email and pre-supplied
id 8; create fails and returns the entity with its id cleared. -/
theorem C5_witness :
    ∃ m, Customer.create ⟨some 8, some "Dee", some "pw5", none, none, some false⟩ ⟨[], 3⟩ =
      ({ (⟨some 8, some "Dee", some "pw5", none, none, some false⟩ : Customer) with id := none },
       Except.error (PyErr.dataValidationError m)) :=
  C5_create_failure_clears_id _ _ (Or.inr (Or.inr (Or.inl rfl)))

/-- C6 (amended): `update()` fails with `DataValidationError` ("Customer
ID cannot be None") when the identifier is falsy (null or zero); when the
identifier is populated, a BLANK (whitespace-only) `name`, `email` or
`password` fails with `DataValidationError`, but a NULL one raises an
uncaught `AttributeError` (calling `.strip()` on `None`) — not a
`ValidationError`; with all three fields present and non-blank the entity
is persisted in place. -/
theorem C6_update_contract (c : Customer) (db : DB) :
    (pyTruthyId c.id = false →
      Customer.update c db =
        Except.error (PyErr.dataValidationError "Customer ID cannot be None")) ∧
    (pyTruthyId c.id = true → c.name = none →
      Customer.update c db =
        Except.error (PyErr.attributeError "'NoneType' object has no attribute 'strip'")) ∧
    (pyTruthyId c.id = true → ∀ n, c.name = some n → isBlank n = true →
      Customer.update c db =
        Except.error (PyErr.dataValidationError "name attribute is not set")) ∧
    (pyTruthyId c.id = true → ∀ n, c.name = some n → isBlank n = false →
      c.email = none →
      Customer.update c db =
        Except.error (PyErr.attributeError "'NoneType' object has no attribute 'strip'")) ∧
    (pyTruthyId c.id = true → ∀ n e, c.name = some n → isBlank n = false →
      c.email = some e → isBlank e = true →
      Customer.update c db =
        Except.error (PyErr.dataValidationError "email attribute is not set")) ∧
    (pyTruthyId c.id = true → ∀ n e, c.name = some n → isBlank n = false →
      c.email = some e → isBlank e = false → c.password = none →
      Customer.update c db =
        Except.error (PyErr.attributeError "'NoneType' object has no attribute 'strip'")) ∧
    (pyTruthyId c.id = true → ∀ n e p, c.name = some n → isBlank n = false →
      c.email = some e → isBlank e = false → c.password = some p → isBlank p = true →
      Customer.update c db =
        Except.error (PyErr.dataValidationError "password attribute is not set")) ∧
    (pyTruthyId c.id = true → rowValid c = true →
      Customer.update c db = Except.ok (dbUpdate db c)) := by
  refine ⟨?_, ?_, ?_, ?_, ?_, ?_, ?_, ?_⟩
  · intro h; simp [Customer.update, h]
  · intro h hn; simp [Customer.update, h, hn]
  · intro h n hn hbn; simp [Customer.update, h, hn, hbn]
  · intro h n hn hbn he; simp [Customer.update, h, hn, hbn, he]
  · intro h n e hn hbn he hbe; simp [Customer.update, h, hn, hbn, he, hbe]
  · intro h n e hn hbn he hbe hp; simp [Customer.update, h, hn, hbn, he, hbe, hp]
  · intro h n e p hn hbn he hbe hp hbp; simp [Customer.update, h, hn, hbn, he, hbe, hp, hbp]
  · intro h hv; exact update_ok db h hv

/-- Counterexample to C6 as stated: an entity with populated id 3 and a
NULL name.  `update()` raises `AttributeError` (an uncaught type error →
HTTP 500), not the claimed `ValidationError`. -/
theorem C6_counterexample :
    Customer.update ⟨some 3, none, some "pw3", some "c@x.io", none, some true⟩ ⟨[], 1⟩ =
      Except.error (PyErr.attributeError "'NoneType' object has no attribute 'strip'") ∧
    ∀ m, Customer.update ⟨some 3, none, some "pw3", some "c@x.io", none, some true⟩ ⟨[], 1⟩ ≠
      Except.error (PyErr.dataValidationError m) := by
  constructor
  · rfl
  · intro m h
    rw [show Customer.update ⟨some 3, none, some "pw3", some "c@x.io", none, some true⟩ ⟨[], 1⟩ =
      Except.error (PyErr.attributeError "'NoneType' object has no attribute 'strip'") from rfl] at h
    simp at h

/-- Witness for C6: the unpopulated-identifier branch and the
persist-in-place branch at concrete entities. -/
theorem C6_witness :
    (Customer.update ⟨none, some "Bo", some "pw1", some "bo@x.io", none, some true⟩ ⟨[], 1⟩ =
      Except.error (PyErr.dataValidationError "Customer ID cannot be None")) ∧
    (Customer.update ⟨some 1, some "Bo", some "pw1", some "bo@x.io", none, some true⟩
        ⟨[⟨some 1, some "Al", some "pw0", some "al@x.io", none, some false⟩], 2⟩ =
      Except.ok (dbUpdate ⟨[⟨some 1, some "Al", some "pw0", some "al@x.io", none, some false⟩], 2⟩
        ⟨some 1, some "Bo", some "pw1", some "bo@x.io", none, some true⟩)) :=
  ⟨(C6_update_contract ⟨none, some "Bo", some "pw1", some "bo@x.io", none, some true⟩ ⟨[], 1⟩).1
      (by decide),
   (C6_update_contract ⟨some 1, some "Bo", some "pw1", some "bo@x.io", none, some true⟩
      ⟨[⟨some 1, some "Al", some "pw0", some "al@x.io", none, some false⟩], 2⟩).2.2.2.2.2.2.2
      (by decide) (by decide)⟩

/-- C1 (code bug): the `if/elif` chain of the list handler is written in
the claimed priority order name > email > address > active > all, and a
request supplying a non-empty `name` (with `active` also supplied) does
return exactly `find_by_name(name)` — but `args_config` never registers
`email` or `address`, so as soon as `name` is falsy the dict lookup
`args["email"]` raises `KeyError("email")` (HTTP 500): the email,
address, active and unfiltered branches are all unreachable.  First
conjunct: the failing input; second conjunct: the name-priority part
that does hold. -/
theorem C1_list_email_keyerror :
    listCustomers
        ⟨[⟨some 1, some "Wang", some "123456", some "w@x.com", some "apt1", some true⟩,
          ⟨some 2, some "Li", some "pw2", some "li@x.com", none, some false⟩], 3⟩
        ⟨some "", some "1", some "w@x.com", none, some "true"⟩ =
      ListResult.serverError (PyErr.keyError "email") ∧
    listCustomers
        ⟨[⟨some 1, some "Wang", some "123456", some "w@x.com", some "apt1", some true⟩,
          ⟨some 2, some "Li", some "pw2", some "li@x.com", none, some false⟩], 3⟩
        ⟨some "Wang", some "1", none, none, some "false"⟩ =
      ListResult.ok ((Customer.find_by_name
        ⟨[⟨some 1, some "Wang", some "123456", some "w@x.com", some "apt1", some true⟩,
          ⟨some 2, some "Li", some "pw2", some "li@x.com", none, some false⟩], 3⟩
        "Wang").map Customer.serialize) := by
  constructor
  · rfl
  · decide

/-- C7 (amended): the three registered list parameters `name`, `id`,
`active` are `required=True`, not optional (and `email`/`address` are not
registered at all): a list request missing any registered parameter — in
particular one supplying none of them — is rejected with a 400
"Missing required parameter" instead of returning the full collection. -/
theorem C7_required_params (db : DB) (r : ListRequest)
    (h : r.name = none ∨ r.id = none ∨ r.active = none) :
    listCustomers db r =
      ListResult.badRequest "Missing required parameter in the query string" := by
  cases hn : r.name <;> cases hi : r.id <;> cases ha : r.active <;>
    simp_all [listCustomers, parseArgs]

/-- Counterexample to C7 as stated: a list request supplying no query
parameters at all is answered with 400, not with the full unfiltered
collection. -/
theorem C7_counterexample :
    listCustomers ⟨[⟨some 1, some "Mo", some "pw", some "mo@x.io", none, some true⟩], 2⟩
        ⟨none, none, none, none, none⟩ =
      ListResult.badRequest "Missing required parameter in the query string" ∧
    listCustomers ⟨[⟨some 1, some "Mo", some "pw", some "mo@x.io", none, some true⟩], 2⟩
        ⟨none, none, none, none, none⟩ ≠
      ListResult.ok ((Customer.all
        ⟨[⟨some 1, some "Mo", some "pw", some "mo@x.io", none, some true⟩], 2⟩).map
        Customer.serialize) := by
  constructor
  · rfl
  · decide

/-- Witness for C7: even a request that supplies `email`, `address`,
`id` and `active` but omits `name` is rejected with 400. -/
theorem C7_witness :
    listCustomers ⟨[], 1⟩ ⟨none, some "1", some "e@x.io", some "apt2", some "true"⟩ =
      ListResult.badRequest "Missing required parameter in the query string" :=
  C7_required_params ⟨[], 1⟩ _ (Or.inl rfl)

/-- C8: for every PUT on an existing id whose body passes validation
(all five body keys present, `name`/`email`/`password` non-null and
non-blank, `active` boolean), the returned serialized entity and the
persisted row both carry the PATH id — whatever id the body supplies
(`body.id` is unconstrained here, so in particular a body smuggling a
different id is overridden). -/
theorem C8_put_forces_path_id (db : DB) (pathId : Int) (body : Payload) (c0 : Customer)
    (n e p : String) (a : Option String) (b : Bool)
    (hfind : Customer.find db pathId = some c0)
    (hpid : pathId ≠ 0)
    (hn : body.name = some (some n)) (hn2 : isBlank n = false)
    (he : body.email = some (some e)) (he2 : isBlank e = false)
    (hp : body.password = some (some p)) (hp2 : isBlank p = false)
    (hb : body.active = some (JVal.jbool b))
    (ha : body.address = some a) :
    ∃ db2,
      putCustomer db pathId body =
        PutResult.ok ⟨some pathId, some n, some p, some e, a, some b⟩ db2 ∧
      Customer.find db2 pathId = some ⟨some pathId, some n, some p, some e, a, some b⟩ := by
  have hc0 : c0.id = some pathId := find_id_eq hfind
  have htr : pyTruthyId c0.id = true := by
    rw [hc0]; simp [pyTruthyId, hpid]
  have hdes : Customer.deserialize c0 body =
      ((⟨c0.id, some n, some p, some e, a, some b⟩ : Customer), none) := by
    unfold Customer.deserialize
    rw [hn, he, hb, ha, hp]
    simp [htr]
  have hrv : rowValid (⟨some pathId, some n, some p, some e, a, some b⟩ : Customer) = true := by
    simp [rowValid, hn2, he2, hp2]
  have hid : pyTruthyId (⟨some pathId, some n, some p, some e, a, some b⟩ : Customer).id = true := by
    simp [pyTruthyId, hpid]
  have hup : Customer.update ⟨some pathId, some n, some p, some e, a, some b⟩ db =
      Except.ok (dbUpdate db ⟨some pathId, some n, some p, some e, a, some b⟩) :=
    update_ok db hid hrv
  refine ⟨dbUpdate db ⟨some pathId, some n, some p, some e, a, some b⟩, ?_, ?_⟩
  · simp [putCustomer, hfind, hdes, hup, Customer.serialize]
  · exact find_dbUpdate hfind rfl

/-- Witness for C8: the stored row has id 1, the body smuggles id 99;
the result and the stored row keep id 1. -/
theorem C8_witness :
    ∃ db2,
      putCustomer ⟨[⟨some 1, some "Old", some "opw", some "o@x.io", none, some false⟩], 2⟩ 1
          ⟨some (some 99), some (some "Nu"), some (some "npw"), some (some "n@x.io"),
           some none, some (JVal.jbool true)⟩ =
        PutResult.ok ⟨some 1, some "Nu", some "npw", some "n@x.io", none, some true⟩ db2 ∧
      Customer.find db2 1 =
        some ⟨some 1, some "Nu", some "npw", some "n@x.io", none, some true⟩ :=
  C8_put_forces_path_id ⟨[⟨some 1, some "Old", some "opw", some "o@x.io", none, some false⟩], 2⟩ 1
    ⟨some (some 99), some (some "Nu"), some (some "npw"), some (some "n@x.io"),
     some none, some (JVal.jbool true)⟩
    ⟨some 1, some "Old", some "opw", some "o@x.io", none, some false⟩
    "Nu" "n@x.io" "npw" none true
    (by decide) (by decide) rfl (by decide) rfl (by decide) rfl (by decide) rfl rfl

/-- Helper: the activate route on a found, valid row commits the row with
`active := true` and reports it. -/
theorem activate_ok {db : DB} {cid : Int} {c0 : Customer}
    (hfind : Customer.find db cid = some c0)
    (hv : rowValid c0 = true) (hcid : cid ≠ 0) :
    activateCustomer db cid =
      ActionResult.ok "Customer activated" (some true)
        (dbUpdate db { c0 with active := some true }) := by
  have hc0 : c0.id = some cid := find_id_eq hfind
  have htr : pyTruthyId ({ c0 with active := some true } : Customer).id = true := by
    show pyTruthyId c0.id = true
    rw [hc0]; simp [pyTruthyId, hcid]
  have hup := update_ok db htr (show rowValid ({ c0 with active := some true } : Customer) = true from hv)
  simp [activateCustomer, hfind, hup]

/-- Helper: the deactivate route on a found, valid row commits the row
with `active := false` and reports it. -/
theorem deactivate_ok {db : DB} {cid : Int} {c0 : Customer}
    (hfind : Customer.find db cid = some c0)
    (hv : rowValid c0 = true) (hcid : cid ≠ 0) :
    deactivateCustomer db cid =
      ActionResult.ok "Customer deactivated" (some false)
        (dbUpdate db { c0 with active := some false }) := by
  have hc0 : c0.id = some cid := find_id_eq hfind
  have htr : pyTruthyId ({ c0 with active := some false } : Customer).id = true := by
    show pyTruthyId c0.id = true
    rw [hc0]; simp [pyTruthyId, hcid]
  have hup := update_ok db htr (show rowValid ({ c0 with active := some false } : Customer) = true from hv)
  simp [deactivateCustomer, hfind, hup]

/-- C9: on an existing id (whose stored row satisfies the persisted-row
invariant: non-blank required fields, non-zero id), activate followed by
deactivate leaves the stored customer with `active = false`, and each
action is idempotent: a second activate (resp. deactivate) commits
exactly the same database state. -/
theorem C9_activate_deactivate_idempotent (db : DB) (cid : Int) (c0 : Customer)
    (hfind : Customer.find db cid = some c0)
    (hv : rowValid c0 = true) (hcid : cid ≠ 0) :
    ∃ db1 db2,
      activateCustomer db cid = ActionResult.ok "Customer activated" (some true) db1 ∧
      activateCustomer db1 cid = ActionResult.ok "Customer activated" (some true) db1 ∧
      deactivateCustomer db1 cid = ActionResult.ok "Customer deactivated" (some false) db2 ∧
      deactivateCustomer db2 cid = ActionResult.ok "Customer deactivated" (some false) db2 ∧
      ∃ cStored, Customer.find db2 cid = some cStored ∧ cStored.active = some false := by
  have hc0 : c0.id = some cid := find_id_eq hfind
  refine ⟨dbUpdate db { c0 with active := some true },
    dbUpdate (dbUpdate db { c0 with active := some true }) { c0 with active := some false },
    ?_, ?_, ?_, ?_, ?_⟩
  · exact activate_ok hfind hv hcid
  · have hfind1 : Customer.find (dbUpdate db { c0 with active := some true }) cid =
        some ({ c0 with active := some true } : Customer) :=
      find_dbUpdate hfind (show c0.id = some cid from hc0)
    rw [activate_ok hfind1 (show rowValid ({ c0 with active := some true } : Customer) = true from hv) hcid]
    exact congrArg (ActionResult.ok "Customer activated" (some true))
      (dbUpdate_idem db { c0 with active := some true })
  · have hfind1 : Customer.find (dbUpdate db { c0 with active := some true }) cid =
        some ({ c0 with active := some true } : Customer) :=
      find_dbUpdate hfind (show c0.id = some cid from hc0)
    exact @deactivate_ok (dbUpdate db { c0 with active := some true }) cid
      ({ c0 with active := some true } : Customer) hfind1
      (show rowValid ({ c0 with active := some true } : Customer) = true from hv) hcid
  · have hfind1 : Customer.find (dbUpdate db { c0 with active := some true }) cid =
        some ({ c0 with active := some true } : Customer) :=
      find_dbUpdate hfind (show c0.id = some cid from hc0)
    have hfind2 : Customer.find
        (dbUpdate (dbUpdate db { c0 with active := some true }) { c0 with active := some false }) cid =
        some ({ c0 with active := some false } : Customer) :=
      find_dbUpdate hfind1 (show c0.id = some cid from hc0)
    rw [deactivate_ok hfind2 (show rowValid ({ c0 with active := some false } : Customer) = true from hv) hcid]
    exact congrArg (ActionResult.ok "Customer deactivated" (some false))
      (dbUpdate_idem (dbUpdate db { c0 with active := some true }) { c0 with active := some false })
  · have hfind1 : Customer.find (dbUpdate db { c0 with active := some true }) cid =
        some ({ c0 with active := some true } : Customer) :=
      find_dbUpdate hfind (show c0.id = some cid from hc0)
    have hfind2 : Customer.find
        (dbUpdate (dbUpdate db { c0 with active := some true }) { c0 with active := some false }) cid =
        some ({ c0 with active := some false } : Customer) :=
      find_dbUpdate hfind1 (show c0.id = some cid from hc0)
    exact ⟨{ c0 with active := some false }, hfind2, rfl⟩

/-- Witness for C9 at a concrete one-row database (id 1, initially
inactive). -/
theorem C9_witness :
    ∃ db1 db2,
      activateCustomer ⟨[⟨some 1, some "Wang", some "pw6", some "w6@x.io", none, some false⟩], 2⟩ 1 =
        ActionResult.ok "Customer activated" (some true) db1 ∧
      activateCustomer db1 1 = ActionResult.ok "Customer activated" (some true) db1 ∧
      deactivateCustomer db1 1 = ActionResult.ok "Customer deactivated" (some false) db2 ∧
      deactivateCustomer db2 1 = ActionResult.ok "Customer deactivated" (some false) db2 ∧
      ∃ cStored, Customer.find db2 1 = some cStored ∧ cStored.active = some false :=
  C9_activate_deactivate_idempotent
    ⟨[⟨some 1, some "Wang", some "pw6", some "w6@x.io", none, some false⟩], 2⟩ 1
    ⟨some 1, some "Wang", some "pw6", some "w6@x.io", none, some false⟩
    (by decide) (by decide) (by decide)
